import Mathlib

/-!
Verification of the attack-path engine core: the dynamic prompt-composition
engine (`app/core/prompts.py`), the response-normalization path
(`app/services/llm_client.py`), and the orchestrating analyzer
(`app/services/analyzer.py`, `app/models/analysis.py`).

The embedding translates the Python source shallowly:
- `InputHost` (`app/models/host.py`) becomes a structure of `Option` fields.
- `PromptBuilder.build_attack_analysis_prompt` becomes a pure function on it;
  Python truthiness guards (`if host.platform:`) become explicit combinators.
- The JSON reply of the generation collaborator is modelled by the `Json`
  inductive together with an executable parser mirroring `json.loads`
  (numbers are kept as their literal text, which is all the code ever
  inspects; the rarely-used `\u` string escape is not modelled).
- Pydantic construction of `AttackPathResponse` becomes an executable
  field-by-field validator; the external LLM call is modelled by passing the
  raw reply text of the collaborator to `analyze` as an argument.
-/

set_option maxRecDepth 1000000

/-! ## JSON values and `json.loads` -/

/-- A parsed JSON value, as produced by Python `json.loads`.  Numeric
literals are kept verbatim as text: the analyzer never inspects numeric
values, only their (non-)stringness. -/
inductive Json where
  | null
  | bool (b : Bool)
  | num (lit : String)
  | str (s : String)
  | arr (elems : List Json)
  | obj (members : List (String × Json))
deriving Repr

/-- JSON whitespace skipping (space, tab, newline, carriage return), as in
Python `json`. -/
def skipWs : List Char → List Char
  | [] => []
  | c :: rest =>
    if c == ' ' || c == '\t' || c == '\n' || c == '\r' then skipWs rest
    else c :: rest

/-- Parse the remainder of a JSON string literal (the opening quote already
consumed), returning the decoded string and the remaining input.  Handles the
standard single-character escapes; `\u` escapes are not modelled (unused by
the code paths under verification). -/
def parseStringLit : List Char → Option (String × List Char)
  | [] => none
  | c :: rest =>
    if c == '"' then some ("", rest)
    else if c == '\\' then
      match rest with
      | [] => none
      | e :: rest2 =>
        let ch? : Option Char :=
          if e == '"' then some '"'
          else if e == '\\' then some '\\'
          else if e == '/' then some '/'
          else if e == 'n' then some '\n'
          else if e == 't' then some '\t'
          else if e == 'r' then some '\r'
          else if e == 'b' then some (Char.ofNat 8)
          else if e == 'f' then some (Char.ofNat 12)
          else none
        match ch? with
        | none => none
        | some ch =>
          match parseStringLit rest2 with
          | some (s, rem) => some (⟨ch :: s.data⟩, rem)
          | none => none
    else
      match parseStringLit rest with
      | some (s, rem) => some (⟨c :: s.data⟩, rem)
      | none => none

/-- Take a maximal run of decimal digits. -/
def takeDigits : List Char → List Char × List Char
  | [] => ([], [])
  | c :: rest =>
    if c.isDigit then
      let (d, r) := takeDigits rest
      (c :: d, r)
    else ([], c :: rest)

/-- Parse a JSON number literal (sign, integer part without leading zeros,
optional fraction and exponent), returning its verbatim text. -/
def parseNumber (s : List Char) : Option (String × List Char) :=
  let (sign, s1) : List Char × List Char :=
    match s with
    | '-' :: rest => (['-'], rest)
    | _ => ([], s)
  match takeDigits s1 with
  | ([], _) => none
  | (intPart, s2) =>
    if intPart.length > 1 && intPart.headD '0' == '0' then none
    else
      let frac? : Option (List Char × List Char) :=
        match s2 with
        | '.' :: rest =>
          match takeDigits rest with
          | ([], _) => none
          | (d, r) => some ('.' :: d, r)
        | _ => some ([], s2)
      match frac? with
      | none => none
      | some (fracPart, s3) =>
        let exp? : Option (List Char × List Char) :=
          match s3 with
          | e :: rest =>
            if e == 'e' || e == 'E' then
              let (esign, s4) : List Char × List Char :=
                match rest with
                | '+' :: r => (['+'], r)
                | '-' :: r => (['-'], r)
                | _ => ([], rest)
              match takeDigits s4 with
              | ([], _) => none
              | (d, r) => some (e :: (esign ++ d), r)
            else some ([], s3)
          | [] => some ([], s3)
        match exp? with
        | none => none
        | some (expPart, s5) =>
          some (⟨sign ++ intPart ++ fracPart ++ expPart⟩, s5)

mutual

/-- Parse one JSON value.  `fuel` bounds the recursion; `json_loads` supplies
ample fuel so that parsing is exhaustive on any actual input. -/
def parseVal : Nat → List Char → Option (Json × List Char)
  | 0, _ => none
  | Nat.succ fuel, s =>
    match skipWs s with
    | [] => none
    | c :: rest =>
      if c == '\x7b' then parseObjBody fuel rest []
      else if c == '[' then parseArrBody fuel rest []
      else if c == '"' then
        match parseStringLit rest with
        | some (str, rem) => some (Json.str str, rem)
        | none => none
      else if ['n', 'u', 'l', 'l'].isPrefixOf (c :: rest) then
        some (Json.null, (c :: rest).drop 4)
      else if ['t', 'r', 'u', 'e'].isPrefixOf (c :: rest) then
        some (Json.bool true, (c :: rest).drop 4)
      else if ['f', 'a', 'l', 's', 'e'].isPrefixOf (c :: rest) then
        some (Json.bool false, (c :: rest).drop 5)
      else if ['N', 'a', 'N'].isPrefixOf (c :: rest) then
        some (Json.num "NaN", (c :: rest).drop 3)
      else if ['I', 'n', 'f', 'i', 'n', 'i', 't', 'y'].isPrefixOf (c :: rest) then
        some (Json.num "Infinity", (c :: rest).drop 8)
      else if ['-', 'I', 'n', 'f', 'i', 'n', 'i', 't', 'y'].isPrefixOf (c :: rest) then
        some (Json.num "-Infinity", (c :: rest).drop 9)
      else
        match parseNumber (c :: rest) with
        | some (lit, rem) => some (Json.num lit, rem)
        | none => none

/-- Parse array elements after `[` (or after a comma), accumulating in order. -/
def parseArrBody : Nat → List Char → List Json → Option (Json × List Char)
  | 0, _, _ => none
  | Nat.succ fuel, s, acc =>
    match skipWs s with
    | ']' :: rest =>
      if acc.isEmpty then some (Json.arr [], rest) else none
    | s1 =>
      match parseVal fuel s1 with
      | none => none
      | some (v, rest) =>
        match skipWs rest with
        | ',' :: rest2 => parseArrBody fuel rest2 (acc ++ [v])
        | ']' :: rest2 => some (Json.arr (acc ++ [v]), rest2)
        | _ => none

/-- Parse object members after the opening brace (or after a comma),
accumulating in insertion order. -/
def parseObjBody : Nat → List Char → List (String × Json) → Option (Json × List Char)
  | 0, _, _ => none
  | Nat.succ fuel, s, acc =>
    match skipWs s with
    | '\x7d' :: rest =>
      if acc.isEmpty then some (Json.obj [], rest) else none
    | '"' :: rest =>
      match parseStringLit rest with
      | none => none
      | some (key, rest2) =>
        match skipWs rest2 with
        | ':' :: rest3 =>
          match parseVal fuel rest3 with
          | none => none
          | some (v, rest4) =>
            match skipWs rest4 with
            | ',' :: rest5 => parseObjBody fuel rest5 (acc ++ [(key, v)])
            | '\x7d' :: rest5 => some (Json.obj (acc ++ [(key, v)]), rest5)
            | _ => none
        | _ => none
    | _ => none

end

/-- `json.loads`: parse a complete JSON document, rejecting trailing
non-whitespace.  Error messages abbreviate those of CPython. -/
def json_loads (raw : String) : Except String Json :=
  match parseVal (2 * raw.length + 2) raw.data with
  | none => Except.error "Expecting value"
  | some (v, rest) =>
    if (skipWs rest).isEmpty then Except.ok v
    else Except.error "Extra data"

/-! ## `InputHost` (`app/models/host.py`)

All 50 fields are optional, mirroring the Pydantic model.  Python `float`
appears only in `vulnerability_score`; the builder merely tests it for
`None`-ness and renders it verbatim, so it is modelled by the decimal text of
the float.  Every other field keeps its source type. -/

structure InputHost where
  platform : Option String := none
  version_os : Option String := none
  open_ports : Option (List Int) := none
  services : Option (List String) := none
  vulnerabilities : Option (List String) := none
  asset_id : Option String := none
  asset_name : Option String := none
  mac_addresses : Option (List String) := none
  ip_addresses : Option (List String) := none
  fqdn : Option String := none
  network_segment : Option String := none
  internet_exposed : Option Bool := none
  firewall_rules : Option (List String) := none
  security_controls : Option (List String) := none
  edr_agent : Option String := none
  antivirus_status : Option String := none
  firewall_status : Option String := none
  encryption_status : Option String := none
  domain_membership : Option String := none
  organizational_unit : Option String := none
  user_accounts : Option (List String) := none
  admin_accounts : Option (List String) := none
  service_accounts : Option (List String) := none
  mfa_enabled : Option Bool := none
  password_policy : Option String := none
  installed_software : Option (List String) := none
  browser_extensions : Option (List String) := none
  database_software : Option (List String) := none
  development_tools : Option (List String) := none
  patch_level : Option String := none
  missing_patches : Option (List String) := none
  os_end_of_life : Option Bool := none
  vulnerability_score : Option String := none
  critical_vuln_count : Option Int := none
  configurations : Option (List String) := none
  compliance_gaps : Option (List String) := none
  security_recommendations : Option (List String) := none
  asset_criticality : Option String := none
  business_role : Option String := none
  data_classification : Option String := none
  environment : Option String := none
  cloud_provider : Option String := none
  cloud_instance_type : Option String := none
  cloud_iam_roles : Option (List String) := none
  container_runtime : Option String := none
  kubernetes_cluster : Option String := none
  backup_system : Option String := none
  backup_location : Option String := none
  threat_intel_matches : Option (List String) := none
  known_exploits : Option (List String) := none

/-! ## Python truthiness and per-field-kind rendering combinators

`build_attack_analysis_prompt` guards most fields with Python truthiness
(`if host.platform:` — false for `None` and for the empty string/list) and the
four fields `internet_exposed`, `mfa_enabled`, `vulnerability_score` and
`critical_vuln_count` with an explicit `is not None` test. -/

/-- Python truthiness of an optional string: `None` and `""` are falsy. -/
def truthyStr : Option String → Bool
  | none => false
  | some s => !(s == "")

/-- Python truthiness of an optional list: `None` and `[]` are falsy. -/
def truthyList {α : Type} : Option (List α) → Bool
  | none => false
  | some l => !l.isEmpty

/-- Python truthiness of an optional bool: only `True` is truthy. -/
def truthyBool : Option Bool → Bool
  | none => false
  | some b => b

/-- `if host.x:` followed by `info.append(f ...)` for a string field. -/
def strLine (x : Option String) (f : String → String) : List String :=
  match x with
  | none => []
  | some s => if s == "" then [] else [f s]

/-- `if host.x:` followed by `info.append(f ...)` for a list field. -/
def listLine {α : Type} (x : Option (List α)) (f : List α → String) : List String :=
  match x with
  | none => []
  | some l => if l.isEmpty then [] else [f l]

/-- `if host.x is not None:` followed by `info.append(f ...)`. -/
def presentLine {α : Type} (x : Option α) (f : α → String) : List String :=
  match x with
  | none => []
  | some v => [f v]

/-- Python `sep.join(strings)`. -/
def joinSep (sep : String) : List String → String
  | [] => ""
  | [x] => x
  | x :: xs => x ++ sep ++ joinSep sep xs

/-- `PromptBuilder._format_list`: bulleted rendering of a list, with a default
for `None`/empty (the builder only calls it on non-empty lists). -/
def format_list (items : Option (List String)) : String :=
  match items with
  | none => "None detected"
  | some [] => "None detected"
  | some l => "\n  • " ++ joinSep "\n  • " l

/-! ## Section bodies, one definition per `*_info` local of
`PromptBuilder.build_attack_analysis_prompt`, lines in source order -/

/-- `core_info` (CORE SYSTEM INFO lines; the end-of-life warning is appended
with Python truthiness of `os_end_of_life`). -/
def core_info (h : InputHost) : List String :=
  strLine h.platform (fun v => "- Platform: " ++ v) ++
  strLine h.version_os (fun v => "- OS Version: " ++ v) ++
  (if truthyBool h.os_end_of_life then
    ["- ⚠️ OS END-OF-LIFE: System is running unsupported OS version"]
  else [])

/-- `asset_info` (ASSET IDENTIFICATION lines). -/
def asset_info (h : InputHost) : List String :=
  strLine h.asset_name (fun v => "- Asset Name: " ++ v) ++
  strLine h.asset_id (fun v => "- Asset ID: " ++ v) ++
  strLine h.fqdn (fun v => "- FQDN: " ++ v) ++
  listLine h.ip_addresses (fun l => "- IP Addresses: " ++ joinSep ", " l) ++
  listLine h.mac_addresses (fun l => "- MAC Addresses: " ++ joinSep ", " l)

/-- `context_info` (ASSET CONTEXT lines). -/
def context_info (h : InputHost) : List String :=
  strLine h.asset_criticality (fun v => "- 🎯 Asset Criticality: " ++ v) ++
  strLine h.business_role (fun v => "- Business Role: " ++ v) ++
  strLine h.environment (fun v => "- Environment: " ++ v) ++
  strLine h.data_classification (fun v => "- Data Classification: " ++ v)

/-- `network_info` (NETWORK & EXPOSURE lines; `internet_exposed` is guarded by
`is not None` and rendered through a dedicated token pair). -/
def network_info (h : InputHost) : List String :=
  strLine h.network_segment (fun v => "- Network Segment: " ++ v) ++
  presentLine h.internet_exposed (fun b =>
    "- Internet Exposed: " ++
      (if b then "YES - Exposed to Internet 🌐" else "No - Internal only")) ++
  listLine h.open_ports (fun l => "- Open Ports: " ++ joinSep ", " (l.map toString)) ++
  listLine h.services (fun l => "- Services:" ++ format_list (some l)) ++
  listLine h.firewall_rules (fun l => "- Firewall Rules:" ++ format_list (some l))

/-- `security_info` (SECURITY CONTROLS lines). -/
def security_info (h : InputHost) : List String :=
  listLine h.security_controls (fun l => "- Security Controls:" ++ format_list (some l)) ++
  strLine h.edr_agent (fun v => "- EDR Agent: " ++ v) ++
  strLine h.antivirus_status (fun v => "- Antivirus Status: " ++ v) ++
  strLine h.firewall_status (fun v => "- Firewall Status: " ++ v) ++
  strLine h.encryption_status (fun v => "- Disk Encryption: " ++ v)

/-- `vuln_info` (VULNERABILITIES & PATCH STATUS lines; the two numeric fields
are guarded by `is not None`). -/
def vuln_info (h : InputHost) : List String :=
  listLine h.vulnerabilities (fun l => "- Known Vulnerabilities:" ++ format_list (some l)) ++
  presentLine h.vulnerability_score (fun v => "- Vulnerability Score: " ++ v) ++
  presentLine h.critical_vuln_count (fun n => "- Critical Vulnerabilities: " ++ toString n) ++
  strLine h.patch_level (fun v => "- Patch Level: " ++ v) ++
  listLine h.missing_patches (fun l => "- Missing Patches:" ++ format_list (some l))

/-- `identity_info` (IDENTITY & ACCESS MANAGEMENT lines; `mfa_enabled` is
guarded by `is not None`). -/
def identity_info (h : InputHost) : List String :=
  strLine h.domain_membership (fun v => "- Domain: " ++ v) ++
  strLine h.organizational_unit (fun v => "- Organizational Unit: " ++ v) ++
  listLine h.user_accounts (fun l => "- User Accounts:" ++ format_list (some l)) ++
  listLine h.admin_accounts (fun l => "- 🔑 Admin Accounts:" ++ format_list (some l)) ++
  listLine h.service_accounts (fun l => "- Service Accounts:" ++ format_list (some l)) ++
  presentLine h.mfa_enabled (fun b =>
    "- Multi-Factor Authentication: " ++ (if b then "Enabled ✓" else "NOT ENABLED ⚠️")) ++
  strLine h.password_policy (fun v => "- Password Policy: " ++ v)

/-- `software_info` (INSTALLED SOFTWARE lines). -/
def software_info (h : InputHost) : List String :=
  listLine h.installed_software (fun l => "- Installed Software:" ++ format_list (some l)) ++
  listLine h.database_software (fun l => "- Database Software:" ++ format_list (some l)) ++
  listLine h.development_tools (fun l => "- Development Tools:" ++ format_list (some l)) ++
  listLine h.browser_extensions (fun l => "- Browser Extensions:" ++ format_list (some l))

/-- `config_info` (MISCONFIGURATIONS & WEAKNESSES lines). -/
def config_info (h : InputHost) : List String :=
  listLine h.configurations (fun l => "- ⚠️ Misconfigurations:" ++ format_list (some l)) ++
  listLine h.security_recommendations
    (fun l => "- Security Recommendations:" ++ format_list (some l)) ++
  listLine h.compliance_gaps (fun l => "- Compliance Gaps:" ++ format_list (some l))

/-- `cloud_info` (CLOUD & CONTAINER ENVIRONMENT lines). -/
def cloud_info (h : InputHost) : List String :=
  strLine h.cloud_provider (fun v => "- Cloud Provider: " ++ v) ++
  strLine h.cloud_instance_type (fun v => "- Instance Type: " ++ v) ++
  listLine h.cloud_iam_roles (fun l => "- IAM Roles:" ++ format_list (some l)) ++
  strLine h.container_runtime (fun v => "- Container Runtime: " ++ v) ++
  strLine h.kubernetes_cluster (fun v => "- Kubernetes Cluster: " ++ v)

/-- `backup_info` (BACKUP & RECOVERY lines). -/
def backup_info (h : InputHost) : List String :=
  strLine h.backup_system (fun v => "- Backup System: " ++ v) ++
  strLine h.backup_location (fun v => "- Backup Location: " ++ v)

/-- `threat_info` (THREAT INTELLIGENCE lines). -/
def threat_info (h : InputHost) : List String :=
  listLine h.threat_intel_matches (fun l => "- 🔴 Threat Intel Matches:" ++ format_list (some l)) ++
  listLine h.known_exploits (fun l => "- Known Exploits:" ++ format_list (some l))

/-! ## Section assembly -/

/-- `if info: sections.append(title + "\n" + "\n".join(info))`. -/
def sectionOf (title : String) (info : List String) : List String :=
  if info.isEmpty then [] else [title ++ "\n" ++ joinSep "\n" info]

/-- The CORE SYSTEM INFO section: unlike every other category, its guard tests
only `host.platform or host.version_os` — `os_end_of_life` alone does not
trigger it. -/
def coreSection (h : InputHost) : List String :=
  if truthyStr h.platform || truthyStr h.version_os then
    ["=== CORE SYSTEM INFO ===" ++ "\n" ++ joinSep "\n" (core_info h)]
  else []

/-- The twelve section titles in the order the builder appends them. -/
def sectionTitles : List String :=
  ["=== CORE SYSTEM INFO ===",
   "=== ASSET IDENTIFICATION ===",
   "=== ASSET CONTEXT (HIGH PRIORITY FOR RISK ASSESSMENT) ===",
   "=== NETWORK & EXPOSURE ===",
   "=== SECURITY CONTROLS (CONSIDER FOR EVASION) ===",
   "=== VULNERABILITIES & PATCH STATUS ===",
   "=== IDENTITY & ACCESS MANAGEMENT ===",
   "=== INSTALLED SOFTWARE (ADDITIONAL ATTACK VECTORS) ===",
   "=== MISCONFIGURATIONS & WEAKNESSES ===",
   "=== CLOUD & CONTAINER ENVIRONMENT ===",
   "=== BACKUP & RECOVERY (POTENTIAL EXFILTRATION TARGET) ===",
   "=== THREAT INTELLIGENCE ==="]

/-- The `sections` list accumulated by `build_attack_analysis_prompt`, in the
append order of the source. -/
def sections (h : InputHost) : List String :=
  coreSection h ++
  sectionOf "=== ASSET IDENTIFICATION ===" (asset_info h) ++
  sectionOf "=== ASSET CONTEXT (HIGH PRIORITY FOR RISK ASSESSMENT) ===" (context_info h) ++
  sectionOf "=== NETWORK & EXPOSURE ===" (network_info h) ++
  sectionOf "=== SECURITY CONTROLS (CONSIDER FOR EVASION) ===" (security_info h) ++
  sectionOf "=== VULNERABILITIES & PATCH STATUS ===" (vuln_info h) ++
  sectionOf "=== IDENTITY & ACCESS MANAGEMENT ===" (identity_info h) ++
  sectionOf "=== INSTALLED SOFTWARE (ADDITIONAL ATTACK VECTORS) ===" (software_info h) ++
  sectionOf "=== MISCONFIGURATIONS & WEAKNESSES ===" (config_info h) ++
  sectionOf "=== CLOUD & CONTAINER ENVIRONMENT ===" (cloud_info h) ++
  sectionOf "=== BACKUP & RECOVERY (POTENTIAL EXFILTRATION TARGET) ===" (backup_info h) ++
  sectionOf "=== THREAT INTELLIGENCE ===" (threat_info h)

/-- Placeholder used when no section has data. -/
def minimalInfo : String := "Minimal information available - generate generic attack path"

/-- `target_info = "\n\n".join(sections) if sections else "Minimal ..."`. -/
def target_info (h : InputHost) : String :=
  if (sections h).isEmpty then minimalInfo else joinSep "\n\n" (sections h)

/-- The fixed text of the prompt f-string before `{target_info}`. -/
def promptPreamble : String :=
  "Generate a realistic attack path for the following target based on collected vulnerability and exposure data.\n" ++
  "\n" ++
  "TARGET INFORMATION (from external collector):\n" ++
  "\n"

/-- Fixed epilogue text, part A (exact template bytes). -/
def promptEpilogueA : String :=
  "\n\nYOUR TASK:\n1. Generate a detailed, step-by-step attack path following the Cyber Kill Chain phases\n2. Map each action to relevant MITRE ATT&CK techniques (TTP - Tactics, Techniques, and Procedures)\n3. **CRITICAL**: Tailor the attack path to the SPECIFIC CONTEXT provided above:\n   - If security controls (EDR, firewall) are present, include evasion techniques\n   - If cloud/container environments are detected, include cloud-native attack techniques\n   - If misconfigurations are listed, exploit them specifically\n   - If admin accounts are identified, target them for privilege escalation\n   - If MFA is disabled, note easier credential access\n   - If asset criticality is high, emphasize the business impact\n   - Consider network segmentation for lateral movement strategies\n4. Provide technical details and include code examples when applicable\n5. Assess the overall risk level based on exploitability, impact, AND asset criticality\n\nAttack Path Structure - Follow Cyber Kill Chain Phases:\n\n"

/-- Fixed epilogue text, part B (exact template bytes). -/
def promptEpilogueB : String :=
  "1. **Reconnaissance**: Collect public and observable information about the target to identify assets, services, and potential exposure (passive, non-actionable). Map to MITRE techniques like T1595 (Active Scanning), T1592 (Gather Victim Host Information).\n\n2. **Weaponization**: Design or select a capability or payload tailored to observed weaknesses. Describe the attack tools or exploits prepared. Map to relevant MITRE techniques.\n\n3. **Delivery**: Describe the vector used to deliver the capability to the target (e.g., network exploitation, phishing, direct service attack). Map to MITRE techniques like T1566 (Phishing), T1190 (Exploit Public-Facing Application).\n\n4. **Exploitation**: Trigger vulnerability or misconfiguration to gain initial access. Include specific exploitation techniques, CVE details, and code examples where applicable. Map to MITRE Initial Access techniques.\n\n5. **Installation**: Establish persistent foothold by deploying tools, backdoors, or mechanisms. Describe installation methods and tools used. Map to MITRE Persistence techniques like T1543 (Create or Modify System Process), T1053 (Scheduled Task).\n\n"

/-- Fixed epilogue text, part C (exact template bytes). -/
def promptEpilogueC : String :=
  "6. **Command and Control (C2)**: Define the channel for remote control and coordination. Include protocols, tools (e.g., Metasploit, Cobalt Strike, custom C2), and communication methods. Map to MITRE C2 techniques like T1071 (Application Layer Protocol), T1573 (Encrypted Channel).\n\n7. **Actions on Objectives**: Describe goals achieved after establishing control such as data access, lateral movement, privilege escalation, data exfiltration, or system disruption. Map to MITRE techniques like T1003 (Credential Dumping), T1021 (Remote Services), T1567 (Exfiltration Over Web Service).\n\nGuidelines:\n- Each step must be a single, detailed string describing one concrete attacker action\n- Include technical specifics: commands, tools, protocols, file paths when relevant\n- Add code examples for exploitation and post-exploitation phases\n- Map each phase to specific MITRE ATT&CK technique IDs (T####)\n- Number of steps should reflect a realistic progression for the given vulnerabilities\n- Ensure logical flow from reconnaissance through objectives\n- Be realistic about what an attacker could achieve with the given attack surface\n\nFormat your response as JSON with this exact structure:\n\x7b\n    \"attack_path\": [\n"

/-- Fixed epilogue text, part D (exact template bytes). -/
def promptEpilogueD : String :=
  "        \"Reconnaissance: [Detailed description with SPECIFIC context from target info, MITRE mapping]\",\n        \"Weaponization: [Description considering security controls present, MITRE mapping]\",\n        \"Delivery: [Description considering network exposure and segmentation, MITRE mapping]\",\n        \"Exploitation: [Detailed exploitation of SPECIFIC vulnerabilities/misconfigurations listed, with CVE, commands, code examples, MITRE mapping]\",\n        \"Installation: [Persistence mechanism considering EDR/security controls, MITRE mapping]\",\n        \"Command and Control: [C2 setup considering firewall rules and network monitoring, MITRE mapping]\",\n        \"Actions on Objectives: [Goals considering asset criticality and data classification, MITRE mapping]\"\n    ]\n\x7d\n\nRules:\n- Always return a valid JSON object with key \"attack_path\"\n- Each attack_path element must be a single string describing one Cyber Kill Chain phase\n- Always map actions to equivalent MITRE ATT&CK technique IDs (T####)\n- **REFERENCE SPECIFIC CONTEXT**: Use actual details from the target information (e.g., specific CVEs, account names, software versions, misconfigurations)\n- Include code examples, commands, or technical details when describing exploitation\n"

/-- Fixed epilogue text, part E (exact template bytes). -/
def promptEpilogueE : String :=
  "- Ensure output is valid, parseable JSON with no additional text outside the JSON structure\n\nGenerate a realistic, context-aware attack sequence now."

/-- The fixed text of the prompt f-string after `\x7btarget_info\x7d`. -/
def promptEpilogue : String :=
  promptEpilogueA ++ promptEpilogueB ++ promptEpilogueC ++ promptEpilogueD ++ promptEpilogueE

/-- `PromptBuilder.build_attack_analysis_prompt`: the full assembled prompt. -/
def build_attack_analysis_prompt (h : InputHost) : String :=
  promptPreamble ++ target_info h ++ promptEpilogue

/-! ## Substring utilities used by the analyzer and in statements -/

/-- Python `s.count("===")`: number of non-overlapping occurrences of `===`,
scanning left to right. -/
def countTripleEq : List Char → Nat
  | '=' :: '=' :: '=' :: rest => countTripleEq rest + 1
  | _ :: rest => countTripleEq rest
  | [] => 0

/-- Python `needle in hay` on character lists. -/
def containsSubstr (needle : List Char) : List Char → Bool
  | [] => needle.isEmpty
  | c :: rest => needle.isPrefixOf (c :: rest) || containsSubstr needle rest

/-! ## `AttackPathAnalyzer.analyze` and `AttackPathResponse`

`analyze` builds the prompt, awaits the collaborator (modelled by taking the
raw reply text as an argument), computes the optional diagnostics, extracts
`attack_path`/`risk_level` from the parsed reply with `dict.get` defaults and
constructs the Pydantic `AttackPathResponse`.  Pydantic (default config)
ignores unknown keyword arguments and reports one error per missing required
field or mistyped value. -/

/-- `AttackPathResponse` (`app/models/analysis.py`): all four fields are
required, and there are no `platform`/`version_os`/`generated_prompt`/
`prompt_sections` fields. -/
structure AttackPathResponse where
  hostname : String
  attack_path : List String
  risk_level : String
  recommendations : List String
deriving Repr

/-- Python `dict` lookup on the parsed object members (later duplicate keys
shadow earlier ones, as in `dict`). -/
def lookupJson (members : List (String × Json)) (key : String) : Option Json :=
  (members.reverse.find? (fun p => p.1 == key)).map (fun p => p.2)

/-- Python `dict.get(key, default)`. -/
def dict_get (members : List (String × Json)) (key : String) (default : Json) : Json :=
  (lookupJson members key).getD default

/-- A keyword argument of `None`-or-string value, as passed to the Pydantic
constructor. -/
def optStrVal : Option String → Json
  | none => Json.null
  | some s => Json.str s

/-- A keyword argument of `None`-or-int value. -/
def optNatVal : Option Nat → Json
  | none => Json.null
  | some n => Json.num (toString n)

/-- Pydantic validation of one required `str` field. -/
def validateStrField (supplied : List (String × Json)) (name : String) : Except String String :=
  match lookupJson supplied name with
  | none => Except.error (name ++ ": Field required")
  | some (Json.str s) => Except.ok s
  | some _ => Except.error (name ++ ": Input should be a valid string")

/-- Extract a `list[str]` payload, failing on any non-string element. -/
def asStrList : List Json → Option (List String)
  | [] => some []
  | Json.str s :: rest => (asStrList rest).map (fun l => s :: l)
  | _ => none

/-- Pydantic validation of one required `list[str]` field. -/
def validateStrListField (supplied : List (String × Json)) (name : String) :
    Except String (List String) :=
  match lookupJson supplied name with
  | none => Except.error (name ++ ": Field required")
  | some (Json.arr xs) =>
    match asStrList xs with
    | some l => Except.ok l
    | none => Except.error (name ++ ": Input should be a valid string")
  | some _ => Except.error (name ++ ": Input should be a valid list")

/-- Collect the error, if any, of one field validation. -/
def errsOf {α : Type} : Except String α → List String
  | Except.error e => [e]
  | Except.ok _ => []

/-- Pydantic construction `AttackPathResponse(**supplied)`: unknown keys are
ignored, each of the four declared (required) fields is validated, and a
`ValidationError` carrying every field error is raised unless all succeed. -/
def AttackPathResponse.validate (supplied : List (String × Json)) :
    Except (List String) AttackPathResponse :=
  match validateStrField supplied "hostname", validateStrListField supplied "attack_path",
      validateStrField supplied "risk_level", validateStrListField supplied "recommendations" with
  | Except.ok hn, Except.ok ap, Except.ok rl, Except.ok rc =>
    Except.ok { hostname := hn, attack_path := ap, risk_level := rl, recommendations := rc }
  | rh, ra, rr, rc => Except.error (errsOf rh ++ errsOf ra ++ errsOf rr ++ errsOf rc)

/-- The ways `AttackPathAnalyzer.analyze` can raise. -/
inductive AnalyzeError where
  | jsonDecodeError (msg : String)
  | attributeError
  | validationError (errors : List String)
deriving Repr

/-- `LLMClient.complete` in JSON mode, after the transport succeeded with
reply text `rawReply`: `json.loads` the content (a `json.JSONDecodeError`
propagates), returning whatever value was parsed — the declared
`Dict[str, Any]` return type is not enforced. -/
def LLMClient.complete (rawReply : String) : Except AnalyzeError Json :=
  match json_loads rawReply with
  | Except.ok v => Except.ok v
  | Except.error msg => Except.error (AnalyzeError.jsonDecodeError msg)

/-- The keyword arguments `analyze` passes to `AttackPathResponse(...)`:
`platform`/`version_os` echoed from the input, `attack_path`/`risk_level`
taken from the reply with `dict.get` defaults, and the two diagnostics
controlled by `include_prompt`. -/
def analyzeKwargs (h : InputHost) (analysis : List (String × Json)) (include_prompt : Bool) :
    List (String × Json) :=
  let user_prompt := build_attack_analysis_prompt h
  let prompt_sections : Option Nat :=
    if include_prompt then some (countTripleEq user_prompt.data / 2) else none
  [("platform", optStrVal h.platform),
   ("version_os", optStrVal h.version_os),
   ("attack_path", dict_get analysis "attack_path" (Json.arr [])),
   ("risk_level", dict_get analysis "risk_level" (Json.str "Unknown")),
   ("generated_prompt", optStrVal (if include_prompt then some user_prompt else none)),
   ("prompt_sections", optNatVal prompt_sections)]

/-- `AttackPathAnalyzer.analyze`: prompt building, the (already completed)
collaborator call, `analysis.get` extraction — an `AttributeError` if the
parsed reply is not a dict — and Pydantic construction of the response. -/
def analyze (h : InputHost) (rawReply : String) (include_prompt : Bool) :
    Except AnalyzeError AttackPathResponse :=
  match LLMClient.complete rawReply with
  | Except.error e => Except.error e
  | Except.ok (Json.obj members) =>
    match AttackPathResponse.validate (analyzeKwargs h members include_prompt) with
    | Except.ok r => Except.ok r
    | Except.error errs => Except.error (AnalyzeError.validationError errs)
  | Except.ok _ => Except.error AnalyzeError.attributeError

/-! ## Auxiliary definitions used only by theorem statements -/

/-- The text up to the first newline: the title line of a rendered section. -/
def firstLine (s : String) : String := ⟨s.data.takeWhile (fun c => !(c == '\n'))⟩

/-- Every one of the 50 input fields is absent in the sense of the data-model
invariant: `None`, the empty string or the empty list. -/
def allFieldsAbsent (h : InputHost) : Prop :=
  truthyStr h.platform = false ∧
  truthyStr h.version_os = false ∧
  truthyList h.open_ports = false ∧
  truthyList h.services = false ∧
  truthyList h.vulnerabilities = false ∧
  truthyStr h.asset_id = false ∧
  truthyStr h.asset_name = false ∧
  truthyList h.mac_addresses = false ∧
  truthyList h.ip_addresses = false ∧
  truthyStr h.fqdn = false ∧
  truthyStr h.network_segment = false ∧
  h.internet_exposed = none ∧
  truthyList h.firewall_rules = false ∧
  truthyList h.security_controls = false ∧
  truthyStr h.edr_agent = false ∧
  truthyStr h.antivirus_status = false ∧
  truthyStr h.firewall_status = false ∧
  truthyStr h.encryption_status = false ∧
  truthyStr h.domain_membership = false ∧
  truthyStr h.organizational_unit = false ∧
  truthyList h.user_accounts = false ∧
  truthyList h.admin_accounts = false ∧
  truthyList h.service_accounts = false ∧
  h.mfa_enabled = none ∧
  truthyStr h.password_policy = false ∧
  truthyList h.installed_software = false ∧
  truthyList h.browser_extensions = false ∧
  truthyList h.database_software = false ∧
  truthyList h.development_tools = false ∧
  truthyStr h.patch_level = false ∧
  truthyList h.missing_patches = false ∧
  h.os_end_of_life = none ∧
  h.vulnerability_score = none ∧
  h.critical_vuln_count = none ∧
  truthyList h.configurations = false ∧
  truthyList h.compliance_gaps = false ∧
  truthyList h.security_recommendations = false ∧
  truthyStr h.asset_criticality = false ∧
  truthyStr h.business_role = false ∧
  truthyStr h.data_classification = false ∧
  truthyStr h.environment = false ∧
  truthyStr h.cloud_provider = false ∧
  truthyStr h.cloud_instance_type = false ∧
  truthyList h.cloud_iam_roles = false ∧
  truthyStr h.container_runtime = false ∧
  truthyStr h.kubernetes_cluster = false ∧
  truthyStr h.backup_system = false ∧
  truthyStr h.backup_location = false ∧
  truthyList h.threat_intel_matches = false ∧
  truthyList h.known_exploits = false

/-! ## Sanity checks of the embedding against documented repository
examples -/

example : json_loads "not json" = Except.error "Expecting value" := by rfl
example : json_loads "[1, 2]" = Except.ok (Json.arr [Json.num "1", Json.num "2"]) := by rfl
example :
    json_loads "\x7b\"attack_path\": [\"step1\",\"step2\"], \"risk_level\": \"Critical\"\x7d" =
      Except.ok (Json.obj [("attack_path", Json.arr [Json.str "step1", Json.str "step2"]),
        ("risk_level", Json.str "Critical")]) := by rfl
example : target_info {} = minimalInfo := by rfl

/-! ## Helper lemmas: emptiness of rendered lines -/

theorem strLine_eq_nil (x : Option String) (f : String → String) :
    strLine x f = [] ↔ truthyStr x = false := by
  cases x with
  | none => simp [strLine, truthyStr]
  | some s =>
    by_cases hs : s == "" <;> simp [strLine, truthyStr, hs]

theorem listLine_eq_nil {α : Type} (x : Option (List α)) (f : List α → String) :
    listLine x f = [] ↔ truthyList x = false := by
  cases x with
  | none => simp [listLine, truthyList]
  | some l =>
    by_cases hl : l.isEmpty <;> simp [listLine, truthyList, hl]

theorem presentLine_eq_nil {α : Type} (x : Option α) (f : α → String) :
    presentLine x f = [] ↔ x = none := by
  cases x <;> simp [presentLine]

theorem sectionOf_eq_nil (t : String) (info : List String) :
    sectionOf t info = [] ↔ info = [] := by
  by_cases h : info.isEmpty <;>
    simp_all [sectionOf, List.isEmpty_iff]

theorem coreSection_eq_nil (h : InputHost) :
    coreSection h = [] ↔ (truthyStr h.platform || truthyStr h.version_os) = false := by
  by_cases hc : (truthyStr h.platform || truthyStr h.version_os) = true
  · simp [coreSection, hc]
  · simp only [Bool.not_eq_true] at hc
    simp [coreSection, hc]

/-! ## Helper lemmas: substring containment -/

theorem strData_append (a b : String) : (a ++ b).data = a.data ++ b.data := by
  cases a; cases b; rfl

theorem isPrefixOf_append_self (n t : List Char) : n.isPrefixOf (n ++ t) = true := by
  induction n with
  | nil => cases t <;> rfl
  | cons c cs ih => simp [List.isPrefixOf, ih]

theorem isPrefixOf_extend (n l t : List Char) (hp : n.isPrefixOf l = true) :
    n.isPrefixOf (l ++ t) = true := by
  induction n generalizing l with
  | nil => cases l <;> simp [List.isPrefixOf]
  | cons c cs ih =>
    cases l with
    | nil => simp [List.isPrefixOf] at hp
    | cons d ds =>
      simp only [List.isPrefixOf, Bool.and_eq_true] at hp ⊢
      exact ⟨hp.1, ih ds hp.2⟩

theorem containsSubstr_nil (t : List Char) : containsSubstr [] t = true := by
  cases t <;> simp [containsSubstr, List.isPrefixOf]

theorem containsSubstr_of_take (n t : List Char) : containsSubstr n (n ++ t) = true := by
  cases n with
  | nil => exact containsSubstr_nil t
  | cons c cs =>
    simp only [List.cons_append, containsSubstr]
    have := isPrefixOf_append_self (c :: cs) t
    simp only [List.cons_append] at this
    simp [this]

theorem containsSubstr_self (n : List Char) : containsSubstr n n = true := by
  have := containsSubstr_of_take n []
  simpa using this

theorem containsSubstr_append_of_right (n pre t : List Char)
    (ht : containsSubstr n t = true) : containsSubstr n (pre ++ t) = true := by
  induction pre with
  | nil => simpa using ht
  | cons c cs ih =>
    simp only [List.cons_append, containsSubstr, Bool.or_eq_true]
    exact Or.inr ih

theorem containsSubstr_append_of_left (n l t : List Char)
    (hl : containsSubstr n l = true) : containsSubstr n (l ++ t) = true := by
  induction l with
  | nil =>
    simp only [containsSubstr, List.isEmpty_iff] at hl
    subst hl
    exact containsSubstr_nil t
  | cons c cs ih =>
    simp only [containsSubstr, Bool.or_eq_true] at hl
    rcases hl with hp | hc
    · have := isPrefixOf_extend n (c :: cs) t hp
      simp only [List.cons_append] at this ⊢
      simp [containsSubstr, this]
    · simp only [List.cons_append, containsSubstr, Bool.or_eq_true]
      exact Or.inr (ih hc)

theorem containsSubstr_joinSep_of_mem (sep : String) (n : List Char) (x : String)
    (l : List String) (hx : x ∈ l) (hn : containsSubstr n x.data = true) :
    containsSubstr n (joinSep sep l).data = true := by
  induction l with
  | nil => simp at hx
  | cons y ys ih =>
    rcases List.mem_cons.mp hx with hxy | hmem
    · subst hxy
      cases ys with
      | nil => simpa [joinSep] using hn
      | cons z zs =>
        show containsSubstr n (x ++ sep ++ joinSep sep (z :: zs)).data = true
        rw [strData_append, strData_append]
        rw [List.append_assoc]
        exact containsSubstr_append_of_left _ _ _ hn
    · cases ys with
      | nil => simp at hmem
      | cons z zs =>
        show containsSubstr n (y ++ sep ++ joinSep sep (z :: zs)).data = true
        rw [strData_append, strData_append]
        exact containsSubstr_append_of_right _ _ _ (ih hmem)

/-! ## Helper lemmas: section title lines and ordering -/

theorem takeWhile_append_cons (p : Char → Bool) (l : List Char) (c : Char) (r : List Char)
    (hl : l.all p = true) (hc : p c = false) : (l ++ c :: r).takeWhile p = l := by
  induction l with
  | nil => simp [List.takeWhile, hc]
  | cons a l2 ih =>
    simp only [List.all_cons, Bool.and_eq_true] at hl
    simp [List.takeWhile, hl.1, ih hl.2]

theorem firstLine_section (t b : String)
    (ht : t.data.all (fun c => !(c == '\n')) = true) :
    firstLine (t ++ "\n" ++ b) = t := by
  have hd : (t ++ "\n" ++ b).data = t.data ++ '\n' :: b.data := by
    rw [strData_append, strData_append, List.append_assoc]
    rfl
  rw [firstLine, hd, takeWhile_append_cons _ _ _ _ ht (by rfl)]

theorem map_firstLine_sectionOf (t : String) (info : List String)
    (ht : t.data.all (fun c => !(c == '\n')) = true) :
    (sectionOf t info).map firstLine = [] ∨ (sectionOf t info).map firstLine = [t] := by
  by_cases h : info.isEmpty
  · exact Or.inl (by simp [sectionOf, h])
  · exact Or.inr (by simp [sectionOf, h, firstLine_section _ _ ht])

theorem map_firstLine_coreSection (h : InputHost) :
    (coreSection h).map firstLine = [] ∨
      (coreSection h).map firstLine = ["=== CORE SYSTEM INFO ==="] := by
  by_cases hc : (truthyStr h.platform || truthyStr h.version_os) = true
  · refine Or.inr ?_
    rw [coreSection, if_pos hc, List.map_cons, List.map_nil,
      firstLine_section "=== CORE SYSTEM INFO ===" (joinSep "\n" (core_info h)) (by decide)]
  · refine Or.inl ?_
    rw [coreSection, if_neg hc]
    rfl

theorem sublist_cons_of_piece {piece rest : List String} {t : String} {ts : List String}
    (hp : piece.map firstLine = [] ∨ piece.map firstLine = [t])
    (hr : (rest.map firstLine).Sublist ts) :
    ((piece ++ rest).map firstLine).Sublist (t :: ts) := by
  rw [List.map_append]
  rcases hp with hp | hp <;> rw [hp]
  · exact hr.cons t
  · exact hr.cons₂ t

theorem sublist_nil_piece :
    (([] : List String).map firstLine).Sublist ([] : List String) := by
  simp

/-! ## Helper lemmas: Pydantic validation always misses two required fields -/

theorem validate_missing_required (supplied : List (String × Json))
    (hh : lookupJson supplied "hostname" = none)
    (hr : lookupJson supplied "recommendations" = none) :
    ∃ errs, AttackPathResponse.validate supplied = Except.error errs ∧
      "hostname: Field required" ∈ errs ∧ "recommendations: Field required" ∈ errs := by
  have h1 : validateStrField supplied "hostname" = Except.error "hostname: Field required" := by
    simp only [validateStrField, hh]
    rfl
  have h4 : validateStrListField supplied "recommendations" =
      Except.error "recommendations: Field required" := by
    simp only [validateStrListField, hr]
    rfl
  rcases ha : validateStrListField supplied "attack_path" with e2 | v2 <;>
    rcases hrl : validateStrField supplied "risk_level" with e3 | v3 <;>
      (simp only [AttackPathResponse.validate, h1, h4, ha, hrl]
       exact ⟨_, rfl, by simp [errsOf], by simp [errsOf]⟩)

/-! ## Helper lemmas: absent fields render nothing -/

theorem strLine_absent {x : Option String} {f : String → String}
    (hx : truthyStr x = false) : strLine x f = [] := by
  cases x with
  | none => rfl
  | some s =>
    simp only [truthyStr, Bool.not_eq_false'] at hx
    simp [strLine, hx]

theorem listLine_absent {α : Type} {x : Option (List α)} {f : List α → String}
    (hx : truthyList x = false) : listLine x f = [] := by
  cases x with
  | none => rfl
  | some l =>
    simp only [truthyList, Bool.not_eq_false'] at hx
    simp [listLine, hx]

/-! ## Helper lemmas: counting `===` across concatenations

`countTripleEq` distributes over an append whenever no occurrence can span
the boundary, i.e. when the right part does not start with `=` or the left
part does not end with `=`. -/

theorem countTripleEq_cons_of_ne (head : Char) (rest : List Char)
    (hne : ∀ rest1, head = '=' → rest = '=' :: '=' :: rest1 → False) :
    countTripleEq (head :: rest) = countTripleEq rest := by
  rw [countTripleEq.eq_def]
  split
  · rename_i x rest1 heq
    exfalso
    have hh : head = '=' := by injection heq
    have ht : rest = '=' :: '=' :: rest1 := by injection heq
    exact hne rest1 hh ht
  · rename_i x hd tl hcond heq
    have h5 : rest = tl := by injection heq
    rw [h5]
  · rename_i x heq
    exact absurd heq (List.cons_ne_nil _ _)

theorem countTripleEq_append : ∀ (a b : List Char),
    (b.headD 'x' ≠ '=' ∨ a.getLastD 'x' ≠ '=') →
    countTripleEq (a ++ b) = countTripleEq a + countTripleEq b := by
  intro a
  induction a using countTripleEq.induct with
  | case1 rest ih =>
    intro b h
    have h2 : b.headD 'x' ≠ '=' ∨ rest.getLastD 'x' ≠ '=' := by
      cases rest with
      | nil =>
        rcases h with h | h
        · exact Or.inl h
        · exact absurd rfl h
      | cons c cs =>
        rcases h with h | h
        · exact Or.inl h
        · right
          simpa [List.getLastD] using h
    show countTripleEq ('=' :: '=' :: '=' :: (rest ++ b)) = _
    simp only [countTripleEq, ih b h2]
    omega
  | case2 head rest hne ih =>
    intro b h
    have h2 : b.headD 'x' ≠ '=' ∨ rest.getLastD 'x' ≠ '=' := by
      cases rest with
      | nil => exact Or.inr (by simp [List.getLastD])
      | cons c cs =>
        rcases h with h | h
        · exact Or.inl h
        · right
          simpa [List.getLastD] using h
    have hne2 : ∀ rest1, head = '=' → rest ++ b = '=' :: '=' :: rest1 → False := by
      intro rest1 hhead htail
      cases rest with
      | nil =>
        simp only [List.nil_append] at htail
        rcases h with h | h
        · exact h (by rw [htail]; rfl)
        · exact h (by simp [List.getLastD, hhead])
      | cons r0 rs =>
        cases rs with
        | nil =>
          simp only [List.cons_append, List.nil_append] at htail
          have hr0 : r0 = '=' := by injection htail
          have hb : b = '=' :: rest1 := by injection htail
          rcases h with h | h
          · exact h (by rw [hb]; rfl)
          · exact h (by simp [List.getLastD, hr0])
        | cons r1 rs2 =>
          simp only [List.cons_append] at htail
          have hr0 : r0 = '=' := by injection htail
          have h3 : r1 :: (rs2 ++ b) = '=' :: rest1 := by injection htail
          have hr1 : r1 = '=' := by injection h3
          exact hne rs2 hhead (by rw [hr0, hr1])
    calc countTripleEq ((head :: rest) ++ b)
        = countTripleEq (head :: (rest ++ b)) := by rw [List.cons_append]
      _ = countTripleEq (rest ++ b) := countTripleEq_cons_of_ne _ _ hne2
      _ = countTripleEq rest + countTripleEq b := ih b h2
      _ = countTripleEq (head :: rest) + countTripleEq b := by
          rw [countTripleEq_cons_of_ne _ _ hne]
  | case3 =>
    intro b h
    simp [countTripleEq]

theorem countTripleEq_promptPreamble : countTripleEq promptPreamble.data = 0 := by decide

theorem countTripleEq_promptEpilogue : countTripleEq promptEpilogue.data = 0 := by
  show countTripleEq (promptEpilogueA ++ promptEpilogueB ++ promptEpilogueC ++
    promptEpilogueD ++ promptEpilogueE).data = 0
  rw [strData_append, strData_append, strData_append, strData_append]
  rw [countTripleEq_append
    (promptEpilogueA.data ++ promptEpilogueB.data ++ promptEpilogueC.data ++
      promptEpilogueD.data) promptEpilogueE.data (Or.inl (by decide))]
  rw [countTripleEq_append
    (promptEpilogueA.data ++ promptEpilogueB.data ++ promptEpilogueC.data)
    promptEpilogueD.data (Or.inl (by decide))]
  rw [countTripleEq_append (promptEpilogueA.data ++ promptEpilogueB.data)
    promptEpilogueC.data (Or.inl (by decide))]
  rw [countTripleEq_append promptEpilogueA.data promptEpilogueB.data (Or.inl (by decide))]
  decide

/-- The `===` count of the assembled prompt comes entirely from the composed
target-information block: the fixed preamble and epilogue contribute none. -/
theorem countTripleEq_prompt (h : InputHost) :
    countTripleEq (build_attack_analysis_prompt h).data =
      countTripleEq (target_info h).data := by
  show countTripleEq (promptPreamble ++ target_info h ++ promptEpilogue).data = _
  rw [strData_append, strData_append]
  rw [countTripleEq_append (promptPreamble.data ++ (target_info h).data)
    promptEpilogue.data (Or.inl (by decide))]
  rw [countTripleEq_append promptPreamble.data (target_info h).data (Or.inr (by decide))]
  rw [countTripleEq_promptPreamble, countTripleEq_promptEpilogue]
  omega

/-! ## Claim theorems -/

/-- C1: the orchestrator is documented (in the docstring of `analyze` and the
spec) to return a response echoing `platform`/`version_os` and carrying the
reply fields `attack_path` and `risk_level` verbatim; the keyword arguments it builds do
carry exactly those values, but the construction of `AttackPathResponse`
always fails because the model requires `hostname` and `recommendations`,
which `analyze` never supplies.  Evaluated at the scenario of the claim
(platform `Linux`, OS `Ubuntu 20.04`, reply
`{"attack_path": ["step1","step2"], "risk_level": "Critical"}`). -/
theorem c1_echo_lost_to_validation_error :
    analyze { platform := some "Linux", version_os := some "Ubuntu 20.04" }
      "\x7b\"attack_path\": [\"step1\",\"step2\"], \"risk_level\": \"Critical\"\x7d" true =
      Except.error (AnalyzeError.validationError
        ["hostname: Field required", "recommendations: Field required"]) ∧
    lookupJson (analyzeKwargs { platform := some "Linux", version_os := some "Ubuntu 20.04" }
        [("attack_path", Json.arr [Json.str "step1", Json.str "step2"]),
         ("risk_level", Json.str "Critical")] true) "attack_path" =
      some (Json.arr [Json.str "step1", Json.str "step2"]) ∧
    lookupJson (analyzeKwargs { platform := some "Linux", version_os := some "Ubuntu 20.04" }
        [("attack_path", Json.arr [Json.str "step1", Json.str "step2"]),
         ("risk_level", Json.str "Critical")] true) "risk_level" =
      some (Json.str "Critical") ∧
    lookupJson (analyzeKwargs { platform := some "Linux", version_os := some "Ubuntu 20.04" }
        [("attack_path", Json.arr [Json.str "step1", Json.str "step2"]),
         ("risk_level", Json.str "Critical")] true) "platform" = some (Json.str "Linux") ∧
    lookupJson (analyzeKwargs { platform := some "Linux", version_os := some "Ubuntu 20.04" }
        [("attack_path", Json.arr [Json.str "step1", Json.str "step2"]),
         ("risk_level", Json.str "Critical")] true) "version_os" =
      some (Json.str "Ubuntu 20.04") :=
  ⟨rfl, rfl, rfl, rfl, rfl⟩

/-- C2: for every input host, every diagnostics flag and every collaborator
reply whose raw text parses as a JSON object, `analyze` raises a Pydantic
validation error naming the never-supplied required fields `hostname` and
`recommendations`, and never returns a value. -/
theorem c2_analyze_always_raises_validation_error (h : InputHost) (raw : String)
    (fields : List (String × Json)) (b : Bool)
    (hp : json_loads raw = Except.ok (Json.obj fields)) :
    ∃ errs, analyze h raw b = Except.error (AnalyzeError.validationError errs) ∧
      "hostname: Field required" ∈ errs ∧ "recommendations: Field required" ∈ errs := by
  obtain ⟨errs, he, m1, m2⟩ :=
    validate_missing_required (analyzeKwargs h fields b) rfl rfl
  refine ⟨errs, ?_, m1, m2⟩
  simp only [analyze, LLMClient.complete, hp, he]

/-- Witness for C2 at the concrete reply `{}`. -/
theorem c2_witness :
    json_loads "\x7b\x7d" = Except.ok (Json.obj []) ∧
    ∃ errs, analyze {} "\x7b\x7d" true = Except.error (AnalyzeError.validationError errs) ∧
      "hostname: Field required" ∈ errs ∧ "recommendations: Field required" ∈ errs :=
  ⟨rfl, c2_analyze_always_raises_validation_error {} "\x7b\x7d" [] true rfl⟩

/-- C3 counterexample: at the example reply `{}` named by the claim, the request does
fail — `normalize`-and-build produces a validation error, not a defaulted
result. -/
theorem c3_counterexample_empty_reply_fails :
    analyze {} "\x7b\x7d" true =
      Except.error (AnalyzeError.validationError
        ["hostname: Field required", "recommendations: Field required"]) := rfl

/-- C3 (amended): for a JSON-object reply, a missing `attack_path` key is
replaced by the empty array and a missing `risk_level` key by `"Unknown"`
(dict.get defaults apply to missing keys only); `recommendations` is never
taken from the reply; the substituted defaults are well-typed, yet the
request still fails on the two unrelated required fields of the response
model. -/
theorem c3_missing_keys_default_but_request_fails (h : InputHost) (b : Bool) (raw : String)
    (fields : List (String × Json))
    (hp : json_loads raw = Except.ok (Json.obj fields))
    (ha : lookupJson fields "attack_path" = none)
    (hr : lookupJson fields "risk_level" = none) :
    lookupJson (analyzeKwargs h fields b) "attack_path" = some (Json.arr []) ∧
    lookupJson (analyzeKwargs h fields b) "risk_level" = some (Json.str "Unknown") ∧
    lookupJson (analyzeKwargs h fields b) "recommendations" = none ∧
    analyze h raw b = Except.error (AnalyzeError.validationError
      ["hostname: Field required", "recommendations: Field required"]) := by
  have hd1 : dict_get fields "attack_path" (Json.arr []) = Json.arr [] := by
    simp only [dict_get, ha, Option.getD_none]
  have hd2 : dict_get fields "risk_level" (Json.str "Unknown") = Json.str "Unknown" := by
    simp only [dict_get, hr, Option.getD_none]
  have hk1 : lookupJson (analyzeKwargs h fields b) "attack_path" =
      some (dict_get fields "attack_path" (Json.arr [])) := rfl
  have hk2 : lookupJson (analyzeKwargs h fields b) "risk_level" =
      some (dict_get fields "risk_level" (Json.str "Unknown")) := rfl
  refine ⟨by rw [hk1, hd1], by rw [hk2, hd2], rfl, ?_⟩
  have hvap : validateStrListField (analyzeKwargs h fields b) "attack_path" =
      Except.ok [] := by
    simp only [validateStrListField, hk1, hd1, asStrList]
  have hvrl : validateStrField (analyzeKwargs h fields b) "risk_level" =
      Except.ok "Unknown" := by
    simp only [validateStrField, hk2, hd2]
  have h1 : validateStrField (analyzeKwargs h fields b) "hostname" =
      Except.error "hostname: Field required" := rfl
  have h4 : validateStrListField (analyzeKwargs h fields b) "recommendations" =
      Except.error "recommendations: Field required" := rfl
  have hv : AttackPathResponse.validate (analyzeKwargs h fields b) =
      Except.error ["hostname: Field required", "recommendations: Field required"] := by
    simp only [AttackPathResponse.validate, h1, hvap, hvrl, h4]
    rfl
  simp only [analyze, LLMClient.complete, hp, hv]

/-- Witness for C3 (amended) at reply `{}`. -/
theorem c3_witness :
    json_loads "\x7b\x7d" = Except.ok (Json.obj []) ∧
    lookupJson ([] : List (String × Json)) "attack_path" = none ∧
    lookupJson ([] : List (String × Json)) "risk_level" = none ∧
    (lookupJson (analyzeKwargs {} [] true) "attack_path" = some (Json.arr []) ∧
     lookupJson (analyzeKwargs {} [] true) "risk_level" = some (Json.str "Unknown") ∧
     lookupJson (analyzeKwargs {} [] true) "recommendations" = none ∧
     analyze {} "\x7b\x7d" true = Except.error (AnalyzeError.validationError
       ["hostname: Field required", "recommendations: Field required"])) :=
  ⟨rfl, rfl, rfl,
    c3_missing_keys_default_but_request_fails {} true "\x7b\x7d" [] rfl rfl rfl⟩

/-- C4: unparsable raw text makes `json.loads` raise, and the error propagates
out of `analyze` (never swallowed into a default result); but a top-level
non-object such as the JSON array `[1, 2]` parses successfully, is returned
by `LLMClient.complete` in spite of its declared `Dict[str, Any]` type, and
the failure only surfaces later as an `AttributeError` when `analyze` calls
`.get` on it — not as a format error from normalization. -/
theorem c4_nonjson_raises_but_nonobject_parses :
    json_loads "not json" = Except.error "Expecting value" ∧
    analyze {} "not json" true =
      Except.error (AnalyzeError.jsonDecodeError "Expecting value") ∧
    LLMClient.complete "[1, 2]" = Except.ok (Json.arr [Json.num "1", Json.num "2"]) ∧
    analyze {} "[1, 2]" true = Except.error AnalyzeError.attributeError :=
  ⟨rfl, rfl, rfl, rfl⟩

/-- C5 counterexample: a record populating fields from both claimed
categories Network & Services (`open_ports`) and Network Context
(`network_segment`) yields ONE merged section, not two. -/
theorem c5_counterexample_merged_network_sections :
    sections { open_ports := some [22], network_segment := some "DMZ" } =
      ["=== NETWORK & EXPOSURE ===\n- Network Segment: DMZ\n- Open Ports: 22"] := rfl

/-- C5 (amended): the composer iterates twelve sections — not the thirteen
data-model categories — in the fixed source order given by `sectionTitles`,
emitting at most one titled section per group; the title lines of the
emitted sections always form a sublist of that fixed title order. -/
theorem c5_titles_sublist_of_fixed_order (h : InputHost) :
    ((sections h).map firstLine).Sublist sectionTitles := by
  rw [sections, sectionTitles]
  simp only [List.append_assoc]
  apply sublist_cons_of_piece (map_firstLine_coreSection h)
  apply sublist_cons_of_piece (map_firstLine_sectionOf _ _ (by decide))
  apply sublist_cons_of_piece (map_firstLine_sectionOf _ _ (by decide))
  apply sublist_cons_of_piece (map_firstLine_sectionOf _ _ (by decide))
  apply sublist_cons_of_piece (map_firstLine_sectionOf _ _ (by decide))
  apply sublist_cons_of_piece (map_firstLine_sectionOf _ _ (by decide))
  apply sublist_cons_of_piece (map_firstLine_sectionOf _ _ (by decide))
  apply sublist_cons_of_piece (map_firstLine_sectionOf _ _ (by decide))
  apply sublist_cons_of_piece (map_firstLine_sectionOf _ _ (by decide))
  apply sublist_cons_of_piece (map_firstLine_sectionOf _ _ (by decide))
  apply sublist_cons_of_piece (map_firstLine_sectionOf _ _ (by decide))
  rcases map_firstLine_sectionOf "=== THREAT INTELLIGENCE ===" (threat_info h)
      (by decide) with hp | hp <;> simp [hp]

/-- C6 counterexample: a record whose only non-absent field is
`os_end_of_life = true` renders no section at all — in particular no CORE
SYSTEM INFO section, although that category has a non-absent field. -/
theorem c6_counterexample_eol_alone_renders_nothing :
    ({ os_end_of_life := some true : InputHost }).os_end_of_life = some true ∧
    sections { os_end_of_life := some true } = [] :=
  ⟨rfl, rfl⟩

/-- C6 (amended): every category except Core System Info renders its section
iff at least one of its fields is non-absent (strings/lists: non-None and
non-empty; the `is not None`-guarded fields `internet_exposed`,
`mfa_enabled`, `vulnerability_score`, `critical_vuln_count`: not None); the
Core System Info section instead renders iff `platform` or `version_os` is
non-absent — `os_end_of_life` alone triggers nothing. -/
theorem c6_section_presence_iff (h : InputHost) :
    (coreSection h ≠ [] ↔
      (truthyStr h.platform = true ∨ truthyStr h.version_os = true)) ∧
    (sectionOf "=== ASSET IDENTIFICATION ===" (asset_info h) ≠ [] ↔
      (truthyStr h.asset_name = true ∨ truthyStr h.asset_id = true ∨
       truthyStr h.fqdn = true ∨ truthyList h.ip_addresses = true ∨
       truthyList h.mac_addresses = true)) ∧
    (sectionOf "=== ASSET CONTEXT (HIGH PRIORITY FOR RISK ASSESSMENT) ===" (context_info h) ≠ []
      ↔ (truthyStr h.asset_criticality = true ∨ truthyStr h.business_role = true ∨
       truthyStr h.environment = true ∨ truthyStr h.data_classification = true)) ∧
    (sectionOf "=== NETWORK & EXPOSURE ===" (network_info h) ≠ [] ↔
      (truthyStr h.network_segment = true ∨ h.internet_exposed ≠ none ∨
       truthyList h.open_ports = true ∨ truthyList h.services = true ∨
       truthyList h.firewall_rules = true)) ∧
    (sectionOf "=== SECURITY CONTROLS (CONSIDER FOR EVASION) ===" (security_info h) ≠ [] ↔
      (truthyList h.security_controls = true ∨ truthyStr h.edr_agent = true ∨
       truthyStr h.antivirus_status = true ∨ truthyStr h.firewall_status = true ∨
       truthyStr h.encryption_status = true)) ∧
    (sectionOf "=== VULNERABILITIES & PATCH STATUS ===" (vuln_info h) ≠ [] ↔
      (truthyList h.vulnerabilities = true ∨ h.vulnerability_score ≠ none ∨
       h.critical_vuln_count ≠ none ∨ truthyStr h.patch_level = true ∨
       truthyList h.missing_patches = true)) ∧
    (sectionOf "=== IDENTITY & ACCESS MANAGEMENT ===" (identity_info h) ≠ [] ↔
      (truthyStr h.domain_membership = true ∨ truthyStr h.organizational_unit = true ∨
       truthyList h.user_accounts = true ∨ truthyList h.admin_accounts = true ∨
       truthyList h.service_accounts = true ∨ h.mfa_enabled ≠ none ∨
       truthyStr h.password_policy = true)) ∧
    (sectionOf "=== INSTALLED SOFTWARE (ADDITIONAL ATTACK VECTORS) ===" (software_info h) ≠ []
      ↔ (truthyList h.installed_software = true ∨ truthyList h.database_software = true ∨
       truthyList h.development_tools = true ∨ truthyList h.browser_extensions = true)) ∧
    (sectionOf "=== MISCONFIGURATIONS & WEAKNESSES ===" (config_info h) ≠ [] ↔
      (truthyList h.configurations = true ∨ truthyList h.security_recommendations = true ∨
       truthyList h.compliance_gaps = true)) ∧
    (sectionOf "=== CLOUD & CONTAINER ENVIRONMENT ===" (cloud_info h) ≠ [] ↔
      (truthyStr h.cloud_provider = true ∨ truthyStr h.cloud_instance_type = true ∨
       truthyList h.cloud_iam_roles = true ∨ truthyStr h.container_runtime = true ∨
       truthyStr h.kubernetes_cluster = true)) ∧
    (sectionOf "=== BACKUP & RECOVERY (POTENTIAL EXFILTRATION TARGET) ===" (backup_info h) ≠ []
      ↔ (truthyStr h.backup_system = true ∨ truthyStr h.backup_location = true)) ∧
    (sectionOf "=== THREAT INTELLIGENCE ===" (threat_info h) ≠ [] ↔
      (truthyList h.threat_intel_matches = true ∨ truthyList h.known_exploits = true)) := by
  refine ⟨?_, ?_, ?_, ?_, ?_, ?_, ?_, ?_, ?_, ?_, ?_, ?_⟩ <;>
    (simp only [Ne, coreSection_eq_nil, sectionOf_eq_nil, asset_info, context_info,
       network_info, security_info, vuln_info, identity_info, software_info, config_info,
       cloud_info, backup_info, threat_info, List.append_eq_nil, strLine_eq_nil,
       listLine_eq_nil, presentLine_eq_nil, Bool.eq_false_iff, Bool.or_eq_true]
     tauto)

/-- C7 counterexample: with `os_end_of_life = true` but `platform` and
`version_os` both absent (and another category populated, so target
information is composed), the composed output does NOT contain the annotated
end-of-life warning line: the only composed section is ASSET IDENTIFICATION,
and the whole data-derived target block lacks the warning. -/
theorem c7_counterexample_warning_dropped :
    sections { asset_name := some "db-01", os_end_of_life := some true } =
      ["=== ASSET IDENTIFICATION ===\n- Asset Name: db-01"] ∧
    containsSubstr "- ⚠️ OS END-OF-LIFE: System is running unsupported OS version".data
      (target_info { asset_name := some "db-01", os_end_of_life := some true }).data
      = false :=
  ⟨rfl, by decide⟩

/-- C7 (amended): the end-of-life warning line is rendered whenever
`os_end_of_life` is true AND the Core System Info guard holds, i.e.
`platform` or `version_os` is non-absent; under that guard the warning
appears in the assembled prompt regardless of everything else. -/
theorem c7_warning_rendered_under_core_guard (h : InputHost)
    (h1 : h.os_end_of_life = some true)
    (h2 : (truthyStr h.platform || truthyStr h.version_os) = true) :
    containsSubstr "- ⚠️ OS END-OF-LIFE: System is running unsupported OS version".data
      (build_attack_analysis_prompt h).data = true := by
  have hw : ("- ⚠️ OS END-OF-LIFE: System is running unsupported OS version" : String)
      ∈ core_info h := by
    rw [core_info]
    refine List.mem_append.mpr (Or.inr ?_)
    rw [h1]
    simp [truthyBool]
  have hb : containsSubstr
      "- ⚠️ OS END-OF-LIFE: System is running unsupported OS version".data
      (joinSep "\n" (core_info h)).data = true :=
    containsSubstr_joinSep_of_mem "\n" _ _ _ hw (containsSubstr_self _)
  obtain ⟨rest, hrest⟩ : ∃ rest,
      sections h = ("=== CORE SYSTEM INFO ===" ++ "\n" ++ joinSep "\n" (core_info h)) :: rest :=
    ⟨_, by rw [sections, coreSection, if_pos h2]; rfl⟩
  have hne : (sections h).isEmpty = false := by rw [hrest]; rfl
  have hti : target_info h = joinSep "\n\n" (sections h) := by
    simp [target_info, hne]
  have hc1 : containsSubstr
      "- ⚠️ OS END-OF-LIFE: System is running unsupported OS version".data
      ("=== CORE SYSTEM INFO ===" ++ "\n" ++ joinSep "\n" (core_info h)).data = true := by
    rw [strData_append]
    exact containsSubstr_append_of_right _ _ _ hb
  have hc2 : containsSubstr
      "- ⚠️ OS END-OF-LIFE: System is running unsupported OS version".data
      (joinSep "\n\n" (sections h)).data = true := by
    rw [hrest]
    exact containsSubstr_joinSep_of_mem "\n\n" _ _ _ (List.mem_cons_self _ _) hc1
  show containsSubstr _ (promptPreamble ++ target_info h ++ promptEpilogue).data = true
  rw [strData_append, strData_append]
  apply containsSubstr_append_of_left
  apply containsSubstr_append_of_right
  rw [hti]
  exact hc2

/-- Witness for C7 (amended) at a host with platform `Linux` and
`os_end_of_life = true`. -/
theorem c7_witness :
    ({ platform := some "Linux", os_end_of_life := some true :
        InputHost }).os_end_of_life = some true ∧
    (truthyStr ({ platform := some "Linux", os_end_of_life := some true :
        InputHost }).platform ||
      truthyStr ({ platform := some "Linux", os_end_of_life := some true :
        InputHost }).version_os) = true ∧
    containsSubstr "- ⚠️ OS END-OF-LIFE: System is running unsupported OS version".data
      (build_attack_analysis_prompt
        { platform := some "Linux", os_end_of_life := some true }).data = true :=
  ⟨rfl, rfl,
    c7_warning_rendered_under_core_guard
      { platform := some "Linux", os_end_of_life := some true } rfl rfl⟩

/-- C8 counterexample: a field value containing `=` runs inflates the
delimiter count — with platform `"======"` exactly one section is composed,
yet the `prompt_sections` diagnostic computed by the analyzer is 2. -/
theorem c8_counterexample_count_inflated_by_data :
    sections { platform := some "======" } =
      ["=== CORE SYSTEM INFO ===\n- Platform: ======"] ∧
    lookupJson (analyzeKwargs { platform := some "======" } [] true) "prompt_sections" =
      some (Json.num "2") := by
  refine ⟨rfl, ?_⟩
  have h1 : countTripleEq
      (build_attack_analysis_prompt { platform := some "======" }).data = 4 := by
    rw [countTripleEq_prompt]
    decide
  show some (Json.num (toString (countTripleEq
    (build_attack_analysis_prompt { platform := some "======" }).data / 2))) =
      some (Json.num "2")
  rw [h1]
  rfl

/-- C8 (amended): with diagnostics on, `analyze` passes the exact assembled
prompt as `generated_prompt` and `count("===") // 2` of it as
`prompt_sections`; with diagnostics off it passes Python `None` for both.
The count comes entirely from the composed target block — the fixed
preamble and epilogue contribute no delimiters and each section title
contributes exactly two — so it equals the section count only when no
populated field value contains `===` itself. -/
theorem c8_diagnostics_contract (h : InputHost) (fields : List (String × Json)) :
    lookupJson (analyzeKwargs h fields true) "generated_prompt" =
      some (Json.str (build_attack_analysis_prompt h)) ∧
    lookupJson (analyzeKwargs h fields true) "prompt_sections" =
      some (Json.num (toString
        (countTripleEq (build_attack_analysis_prompt h).data / 2))) ∧
    lookupJson (analyzeKwargs h fields false) "generated_prompt" = some Json.null ∧
    lookupJson (analyzeKwargs h fields false) "prompt_sections" = some Json.null ∧
    countTripleEq (build_attack_analysis_prompt h).data =
      countTripleEq (target_info h).data ∧
    countTripleEq promptPreamble.data = 0 ∧
    countTripleEq promptEpilogue.data = 0 ∧
    sectionTitles.all (fun t => countTripleEq t.data == 2) = true :=
  ⟨rfl, rfl, rfl, rfl, countTripleEq_prompt h, countTripleEq_promptPreamble,
    countTripleEq_promptEpilogue, by decide⟩

/-- C9 (Scenario A): the record with exactly `platform = "Linux"` and
`open_ports = [22, 80]` populated composes exactly two sections, titled
CORE SYSTEM INFO (containing the line `- Platform: Linux`) and
NETWORK & EXPOSURE (containing the line `- Open Ports: 22, 80`), in that
order. -/
theorem c9_scenario_a_two_sections :
    sections { platform := some "Linux", open_ports := some [22, 80] } =
      ["=== CORE SYSTEM INFO ===\n- Platform: Linux",
       "=== NETWORK & EXPOSURE ===\n- Open Ports: 22, 80"] ∧
    firstLine "=== CORE SYSTEM INFO ===\n- Platform: Linux" = "=== CORE SYSTEM INFO ===" ∧
    firstLine "=== NETWORK & EXPOSURE ===\n- Open Ports: 22, 80" =
      "=== NETWORK & EXPOSURE ===" ∧
    containsSubstr "- Platform: Linux".data
      "=== CORE SYSTEM INFO ===\n- Platform: Linux".data = true ∧
    containsSubstr "- Open Ports: 22, 80".data
      "=== NETWORK & EXPOSURE ===\n- Open Ports: 22, 80".data = true :=
  ⟨rfl, rfl, rfl, by decide, by decide⟩

/-- C10: for every record all of whose fields are absent (None, empty string
or empty list), the composer returns no sections and the assembler puts the
fixed minimal-information placeholder sentence in place of the target block. -/
theorem c10_all_absent_yields_placeholder (h : InputHost) (ha : allFieldsAbsent h) :
    sections h = [] ∧
    build_attack_analysis_prompt h =
      promptPreamble ++ "Minimal information available - generate generic attack path" ++
        promptEpilogue := by
  obtain ⟨a1, a2, a3, a4, a5, a6, a7, a8, a9, a10, a11, a12, a13, a14, a15, a16, a17, a18,
    a19, a20, a21, a22, a23, a24, a25, a26, a27, a28, a29, a30, a31, a32, a33, a34, a35,
    a36, a37, a38, a39, a40, a41, a42, a43, a44, a45, a46, a47, a48, a49, a50⟩ := ha
  have hs : sections h = [] := by
    simp [sections, coreSection, sectionOf, core_info, asset_info, context_info,
      network_info, security_info, vuln_info, identity_info, software_info, config_info,
      cloud_info, backup_info, threat_info, presentLine, truthyBool,
      strLine_absent, listLine_absent,
      a1, a2, a3, a4, a5, a6, a7, a8, a9, a10, a11, a12, a13, a14, a15, a16, a17, a18,
      a19, a20, a21, a22, a23, a24, a25, a26, a27, a28, a29, a30, a31, a32, a33, a34, a35,
      a36, a37, a38, a39, a40, a41, a42, a43, a44, a45, a46, a47, a48, a49, a50]
  refine ⟨hs, ?_⟩
  have ht : target_info h = minimalInfo := by
    unfold target_info
    rw [hs]
    rfl
  show promptPreamble ++ target_info h ++ promptEpilogue = _
  rw [ht]
  rfl

/-- Witness for C10 at the record with every field `None`. -/
theorem c10_witness :
    allFieldsAbsent {} ∧
    (sections ({} : InputHost) = [] ∧
     build_attack_analysis_prompt {} =
       promptPreamble ++ "Minimal information available - generate generic attack path" ++
         promptEpilogue) :=
  ⟨⟨rfl, rfl, rfl, rfl, rfl, rfl, rfl, rfl, rfl, rfl, rfl, rfl, rfl, rfl, rfl, rfl, rfl, rfl, rfl, rfl, rfl, rfl, rfl, rfl, rfl, rfl, rfl, rfl, rfl, rfl, rfl, rfl, rfl, rfl, rfl, rfl, rfl, rfl, rfl, rfl, rfl, rfl, rfl, rfl, rfl, rfl, rfl, rfl, rfl, rfl⟩, c10_all_absent_yields_placeholder {} ⟨rfl, rfl, rfl, rfl, rfl, rfl, rfl, rfl, rfl, rfl, rfl, rfl, rfl, rfl, rfl, rfl, rfl, rfl, rfl, rfl, rfl, rfl, rfl, rfl, rfl, rfl, rfl, rfl, rfl, rfl, rfl, rfl, rfl, rfl, rfl, rfl, rfl, rfl, rfl, rfl, rfl, rfl, rfl, rfl, rfl, rfl, rfl, rfl, rfl, rfl⟩⟩
